import Mathlib

/-!
Shallow embedding of the Obsidian "scrolling" plugin (main source file,
class ScrollingPlugin) and proofs about its cursor-centering behaviour.

Modelling conventions:
* JavaScript numbers are modelled as rationals (ℚ).  All arithmetic the
  plugin performs on them (addition, subtraction, multiplication, division,
  Math.round) is exact on the values the plugin uses, so ℚ is faithful.
* The single-threaded event loop with setTimeout / clearTimeout is modelled
  explicitly: a World carries the list of pending timers (each with a fresh
  numeric id, its delay and its callback) and the plugin's mutable fields.
  Firing a timer removes it from the pending list and runs its callback.
* The DOM is abstracted to what the plugin observes: the cursor's screen
  y-coordinate (editor_view.coordsAtPos(...)?.top, an Option since CodeMirror
  may return null), the scroller's bounding rectangle top/bottom, whether a
  markdown view is active, whether something is selected, and the presence of
  the injected style element with id "scrolling-scrollbar-style".
* Math.round x = ⌊x + 1/2⌋ for all JS numbers, which coincides with
  Mathlib's round on ℚ.  The smoothness sliders are limited to [0, 4]
  (setLimits(0, 4, 0.1)), so the step count round(1 + 4*smoothness) is a
  nonnegative integer; Int.toNat converts it to the ℕ counter used by the
  timer recursion.
-/

/-- The ScrollingPluginSettings interface of the plugin. -/
structure ScrollingPluginSettings where
  mouse_scroll_enabled : Bool
  mouse_scroll_speed : ℚ
  mouse_scroll_smoothness : ℚ
  mouse_scroll_invert : Bool
  center_cursor_enabled : Bool
  center_cursor_editing_distance : ℚ
  center_cursor_moving_distance : ℚ
  center_cursor_editing_smoothness : ℚ
  center_cursor_moving_smoothness : ℚ
  center_cursor_enable_mouse : Bool
  scrollbar_global : Bool
  scrollbar_visibility : String
  scrollbar_width : ℚ
deriving DecidableEq, Repr

/-- The DEFAULT_SETTINGS constant of the plugin. -/
def DEFAULT_SETTINGS : ScrollingPluginSettings :=
  { mouse_scroll_enabled := true
    mouse_scroll_speed := 1
    mouse_scroll_smoothness := 1
    mouse_scroll_invert := false
    center_cursor_enabled := true
    center_cursor_editing_distance := 25
    center_cursor_moving_distance := 25
    center_cursor_editing_smoothness := 1
    center_cursor_moving_smoothness := 1
    center_cursor_enable_mouse := false
    scrollbar_global := false
    scrollbar_visibility := "show"
    scrollbar_width := 12 }

/-- A callback closed over by a setTimeout call: either one step of the
smoothscroll recursion (closing over dest, step_size, time and the remaining
step counter), or the anonymous deferred check inside
selectionchange_callback. -/
inductive TimerCallback where
  | smoothscrollStep (dest step_size time : ℚ) (step : ℕ)
  | selectionCheck
deriving DecidableEq, Repr

/-- A pending timer of the host event loop. -/
structure Timer where
  id : ℕ
  delay : ℚ
  callback : TimerCallback
deriving DecidableEq, Repr

/-- What the plugin observes of the editor geometry: the cursor's on-screen
y-coordinate (coordsAtPos may return null), the scroller's bounding
rectangle, and whether a selection is non-empty. -/
structure EditorGeometry where
  cursorTop : Option ℚ
  rectTop : ℚ
  rectBottom : ℚ
  somethingSelected : Bool
deriving DecidableEq, Repr

/-- The whole observable state: the plugin instance's mutable fields
(settings, editing / mousedown / mouseup flags, the smoothscroll_timeout
handle), the viewport's vertical scroll offset, the editor geometry, whether
an active MarkdownView exists, the event loop's pending timers together with
the next fresh timer id, and whether the scrollbar style element is in the
document head. -/
structure World where
  settings : ScrollingPluginSettings
  editing : Bool
  mousedown : Bool
  mouseup : Bool
  smoothscroll_timeout : Option ℕ
  scrollY : ℚ
  geom : EditorGeometry
  activeMarkdownView : Bool
  pending : List Timer
  nextId : ℕ
  styleInjected : Bool
deriving DecidableEq, Repr

/-- setTimeout: append a fresh timer and return its handle (id). -/
def setTimeoutW (w : World) (cb : TimerCallback) (delay : ℚ) : World × ℕ :=
  ({ w with
      pending := w.pending ++ [{ id := w.nextId, delay := delay, callback := cb }]
      nextId := w.nextId + 1 },
   w.nextId)

/-- clearTimeout: cancel the timer with the given handle, if any; with an
undefined handle (none) it is a no-op, as in JS. -/
def clearTimeoutW (w : World) (h : Option ℕ) : World :=
  match h with
  | none => w
  | some i => { w with pending := w.pending.filter (fun t => t.id ≠ i) }

/-- ScrollingPlugin.smoothscroll: one invocation of the recursive animation
body.  `if (!step) return;` then scroll to dest - step_size*(step-1), then
schedule the next invocation with step-1 after `time`, storing the handle in
smoothscroll_timeout. -/
def smoothscroll (w : World) (dest step_size time : ℚ) (step : ℕ) : World :=
  if step = 0 then w
  else
    let move_to := dest - step_size * ((step : ℚ) - 1)
    let w1 := { w with scrollY := move_to }
    let p := setTimeoutW w1 (TimerCallback.smoothscrollStep dest step_size time (step - 1)) time
    { p.1 with smoothscroll_timeout := some p.2 }

/-- The body of ScrollingPlugin.scroll after the null check on
coordsAtPos: read the current scroll offset and the scroller's bounding
rectangle, compute the offset of the cursor from the rectangle's midpoint,
cancel the pending smoothscroll timer, compute the step count from
center_cursor_editing_smoothness and start the animation. -/
def scrollBody (w : World) (cursor_top : ℚ) : World :=
  let current_scroll_y := w.scrollY
  let cursor_y := cursor_top
  let center := (w.geom.rectTop + w.geom.rectBottom) / 2
  let center_offset := cursor_y - center
  let w1 := clearTimeoutW w w.smoothscroll_timeout
  let time : ℚ := 5
  let steps : ℕ := (round (1 + 4 * w.settings.center_cursor_editing_smoothness)).toNat
  smoothscroll w1 (current_scroll_y + center_offset) (center_offset / (steps : ℚ)) time steps

/-- ScrollingPlugin.scroll: abort silently when coordsAtPos returns null,
otherwise run the body. -/
def scroll (w : World) : World :=
  match w.geom.cursorTop with
  | none => w
  | some cursor_top => scrollBody w cursor_top

/-- ScrollingPlugin.edit_callback: set editing and re-center. -/
def edit_callback (w : World) : World :=
  scroll { w with editing := true }

/-- ScrollingPlugin.mousedown_callback. -/
def mousedown_callback (w : World) : World :=
  { w with mousedown := true }

/-- ScrollingPlugin.mouseup_callback. -/
def mouseup_callback (w : World) : World :=
  { w with mousedown := false, mouseup := true }

/-- The body of the anonymous callback scheduled (with delay 10) by
selectionchange_callback: re-check mousedown, consume the editing flag,
require an active MarkdownView editor, require no selection, then scroll. -/
def selectionCheckBody (w : World) : World :=
  if w.mousedown then w
  else if w.editing then { w with editing := false }
  else if ¬ w.activeMarkdownView then w
  else if w.geom.somethingSelected then w
  else scroll w

/-- ScrollingPlugin.selectionchange_callback: ignore during a drag, consume
the mouseup flag, otherwise schedule the deferred check after 10 ms (the
returned handle is discarded, as in the source). -/
def selectionchange_callback (w : World) : World :=
  if w.mousedown then w
  else if w.mouseup then { w with mouseup := false }
  else (setTimeoutW w TimerCallback.selectionCheck 10).1

/-- Run a timer callback. -/
def runCallback (w : World) (cb : TimerCallback) : World :=
  match cb with
  | TimerCallback.smoothscrollStep dest step_size time step =>
      smoothscroll w dest step_size time step
  | TimerCallback.selectionCheck => selectionCheckBody w

/-- The event loop fires the pending timer with id `i` (if still pending):
it is removed from the pending list and its callback runs. -/
def fireTimer (w : World) (i : ℕ) : World :=
  match w.pending.find? (fun t => t.id = i) with
  | none => w
  | some t => runCallback { w with pending := w.pending.filter (fun t => t.id ≠ i) } t.callback

/-- Fire the oldest pending timer (used to drain a known timer chain). -/
def fireNext (w : World) : World :=
  match w.pending with
  | [] => w
  | t :: rest => runCallback { w with pending := rest } t.callback

/-- Iterate fireNext. -/
def fireNextIter : ℕ → World → World
  | 0, w => w
  | n + 1, w => fireNextIter n (fireNext w)

/-- ScrollingPlugin.remove_css: remove the style element with id
"scrolling-scrollbar-style" if present. -/
def remove_css (w : World) : World :=
  { w with styleInjected := false }

/-- ScrollingPlugin.update_scrollbar_css: remove the old style element and
append a fresh one to document.head (its text content is pure string
templating, abstracted to presence of the element). -/
def update_scrollbar_css (w : World) : World :=
  { remove_css w with styleInjected := true }

/-- ScrollingPlugin.onunload: only remove_css runs (plus a console.log). -/
def onunload (w : World) : World :=
  remove_css w

/-- The raw input events the plugin subscribes to, plus the host loop firing
a pending timer. -/
inductive Event where
  | edit
  | mousedown
  | mouseup
  | selectionchange
  | fire (i : ℕ)
deriving DecidableEq, Repr

/-- Dispatch one event. -/
def stepEv (w : World) (e : Event) : World :=
  match e with
  | Event.edit => edit_callback w
  | Event.mousedown => mousedown_callback w
  | Event.mouseup => mouseup_callback w
  | Event.selectionchange => selectionchange_callback w
  | Event.fire i => fireTimer w i

/-- Run a sequence of events. -/
def runEvents (w : World) (es : List Event) : World :=
  es.foldl stepEv w

/-- The state right after onload: the three flags are undefined (falsy),
smoothscroll_timeout is undefined, no timer is pending, and
update_scrollbar_css has injected the style element. -/
def initWorld (s : ScrollingPluginSettings) (g : EditorGeometry)
    (active : Bool) (y : ℚ) : World :=
  { settings := s
    editing := false
    mousedown := false
    mouseup := false
    smoothscroll_timeout := none
    scrollY := y
    geom := g
    activeMarkdownView := active
    pending := []
    nextId := 0
    styleInjected := true }

/-- Whether a callback belongs to a scroll animation. -/
def TimerCallback.isAnim : TimerCallback → Bool
  | TimerCallback.smoothscrollStep _ _ _ _ => true
  | TimerCallback.selectionCheck => false

/-- The pending scroll-animation timers of a world. -/
def animTimers (w : World) : List Timer :=
  w.pending.filter (fun t => t.callback.isAnim)

/-! ### Basic reduction lemmas -/

/-- scroll aborts when coordsAtPos returns null. -/
theorem scroll_of_cursor_none (w : World) (h : w.geom.cursorTop = none) :
    scroll w = w := by
  unfold scroll
  rw [h]

/-- scroll runs its body when coordsAtPos returns a coordinate. -/
theorem scroll_of_cursor_some (w : World) (c : ℚ) (h : w.geom.cursorTop = some c) :
    scroll w = scrollBody w c := by
  unfold scroll
  rw [h]

/-- scrollBody unfolded. -/
theorem scrollBody_eq (w : World) (c : ℚ) :
    scrollBody w c =
      smoothscroll (clearTimeoutW w w.smoothscroll_timeout)
        (w.scrollY + (c - (w.geom.rectTop + w.geom.rectBottom) / 2))
        ((c - (w.geom.rectTop + w.geom.rectBottom) / 2) /
          (((round (1 + 4 * w.settings.center_cursor_editing_smoothness)).toNat : ℚ)))
        5
        (round (1 + 4 * w.settings.center_cursor_editing_smoothness)).toNat := rfl

/-- A smoothscroll invocation with a zero step counter does nothing. -/
theorem smoothscroll_zero (w : World) (dest step_size time : ℚ) :
    smoothscroll w dest step_size time 0 = w := rfl

/-- A smoothscroll invocation with a positive step counter scrolls to
dest - step_size*(step-1) and schedules the next invocation. -/
theorem smoothscroll_succ (w : World) (dest step_size time : ℚ) (k : ℕ) :
    smoothscroll w dest step_size time (k + 1) =
      { w with
          scrollY := dest - step_size * (k : ℚ)
          pending := w.pending ++ [{ id := w.nextId, delay := time, callback := TimerCallback.smoothscrollStep dest step_size time k }]
          nextId := w.nextId + 1
          smoothscroll_timeout := some w.nextId } := by
  simp only [smoothscroll, setTimeoutW, if_neg (Nat.succ_ne_zero k)]
  norm_num

/-- clearTimeoutW only rewrites the pending list. -/
theorem clearTimeoutW_eq (w : World) (h : Option ℕ) :
    clearTimeoutW w h = { w with pending := (clearTimeoutW w h).pending } := by
  cases h <;> rfl

/-- With the slider-enforced bound 0 ≤ smoothness, the step count
round(1 + 4*smoothness) is at least 1. -/
theorem one_le_round_steps (s : ℚ) (hs : 0 ≤ s) : 1 ≤ round (1 + 4 * s) := by
  rw [round_eq, Int.le_floor]
  push_cast
  linarith

/-! ### The timer chain of one animation -/

/-- Firing the single pending timer of an animation with a positive
remaining counter performs one tick and schedules the next. -/
theorem fireNext_chain_succ (w : World) (i : ℕ) (dl dest d tm : ℚ) (k : ℕ)
    (hp : w.pending = [{ id := i, delay := dl, callback := TimerCallback.smoothscrollStep dest d tm (k + 1) }]) :
    fireNext w =
      { w with
          scrollY := dest - d * (k : ℚ)
          pending := [{ id := w.nextId, delay := tm, callback := TimerCallback.smoothscrollStep dest d tm k }]
          nextId := w.nextId + 1
          smoothscroll_timeout := some w.nextId } := by
  unfold fireNext
  rw [hp]
  simp only [runCallback]
  rw [smoothscroll_succ]
  simp

/-- Firing the trailing zero-step timer does nothing but consume it. -/
theorem fireNext_chain_zero (w : World) (i : ℕ) (dl dest d tm : ℚ)
    (hp : w.pending = [{ id := i, delay := dl, callback := TimerCallback.smoothscrollStep dest d tm 0 }]) :
    fireNext w = { w with pending := [] } := by
  unfold fireNext
  rw [hp]
  simp only [runCallback]
  rw [smoothscroll_zero]

/-- Tracking an animation chain across j firings: after j ≤ k firings the
sole pending timer holds the counter k - j, and for j ≥ 1 the offset is
dest - d*(k - j). -/
theorem chain_iter (j : ℕ) :
    ∀ (w : World) (i : ℕ) (dl dest d tm : ℚ) (k : ℕ), j ≤ k →
      w.pending = [{ id := i, delay := dl, callback := TimerCallback.smoothscrollStep dest d tm k }] →
      ∃ i2 dl2,
        (fireNextIter j w).pending = [{ id := i2, delay := dl2, callback := TimerCallback.smoothscrollStep dest d tm (k - j) }] ∧
        (fireNextIter j w).scrollY = (if j = 0 then w.scrollY else dest - d * ((k - j : ℕ) : ℚ)) := by
  induction j with
  | zero =>
    intro w i dl dest d tm k _ hp
    exact ⟨i, dl, by simpa [fireNextIter] using hp, by simp [fireNextIter]⟩
  | succ j ih =>
    intro w i dl dest d tm k hjk hp
    cases k with
    | zero => omega
    | succ k0 =>
      have hstep := fireNext_chain_succ w i dl dest d tm k0 hp
      have hj : j ≤ k0 := Nat.succ_le_succ_iff.mp hjk
      have hiter : fireNextIter (j + 1) w = fireNextIter j (fireNext w) := rfl
      obtain ⟨i2, dl2, hpend, hy⟩ := ih (fireNext w) w.nextId tm dest d tm k0 hj (by rw [hstep])
      have hsub : k0 + 1 - (j + 1) = k0 - j := by omega
      refine ⟨i2, dl2, ?_, ?_⟩
      · rw [hiter, hsub]
        exact hpend
      · rw [hiter, hy, if_neg (Nat.succ_ne_zero j), hsub]
        rcases Nat.eq_zero_or_pos j with hj0 | hjpos
        · subst hj0
          simp [hstep]
        · rw [if_neg (Nat.pos_iff_ne_zero.mp hjpos)]

/-- Draining an animation chain whose sole pending timer has counter k:
after k + 1 firings the pending list is empty and (for k ≥ 1) the offset
rests at dest; only scrollY, pending, nextId and the handle are touched. -/
theorem chain_drain (k : ℕ) :
    ∀ (w : World) (i : ℕ) (dl dest d tm : ℚ),
      w.pending = [{ id := i, delay := dl, callback := TimerCallback.smoothscrollStep dest d tm k }] →
      (fireNextIter (k + 1) w).pending = [] ∧
      (fireNextIter (k + 1) w).scrollY = (if k = 0 then w.scrollY else dest) := by
  induction k with
  | zero =>
    intro w i dl dest d tm hp
    have h0 := fireNext_chain_zero w i dl dest d tm hp
    constructor
    · show (fireNextIter 0 (fireNext w)).pending = []
      simp [fireNextIter, h0]
    · show (fireNextIter 0 (fireNext w)).scrollY = _
      simp [fireNextIter, h0]
  | succ k0 ih =>
    intro w i dl dest d tm hp
    have hstep := fireNext_chain_succ w i dl dest d tm k0 hp
    have hiter : fireNextIter (k0 + 1 + 1) w = fireNextIter (k0 + 1) (fireNext w) := rfl
    obtain ⟨hpend, hy⟩ := ih (fireNext w) w.nextId tm dest d tm (by rw [hstep])
    refine ⟨by rw [hiter]; exact hpend, ?_⟩
    rw [hiter, hy]
    rcases Nat.eq_zero_or_pos k0 with hk0 | hkpos
    · subst hk0
      simp [hstep]
    · simp [Nat.pos_iff_ne_zero.mp hkpos]

/-- Invoking scroll from a world whose pending list survives clearTimeout
empty: the first tick happens synchronously and the rest of the chain is
scheduled as a single timer. -/
theorem scroll_start (w : World) (c : ℚ) (m : ℕ)
    (hc : w.geom.cursorTop = some c)
    (hp : (clearTimeoutW w w.smoothscroll_timeout).pending = [])
    (hm : (round (1 + 4 * w.settings.center_cursor_editing_smoothness)).toNat = m + 1) :
    scroll w =
      { w with
          scrollY := (w.scrollY + (c - (w.geom.rectTop + w.geom.rectBottom) / 2)) -
            ((c - (w.geom.rectTop + w.geom.rectBottom) / 2) / ((m + 1 : ℕ) : ℚ)) * (m : ℚ)
          pending := [{ id := w.nextId, delay := 5, callback := TimerCallback.smoothscrollStep (w.scrollY + (c - (w.geom.rectTop + w.geom.rectBottom) / 2)) ((c - (w.geom.rectTop + w.geom.rectBottom) / 2) / ((m + 1 : ℕ) : ℚ)) 5 m }]
          nextId := w.nextId + 1
          smoothscroll_timeout := some w.nextId } := by
  have h1 : clearTimeoutW w w.smoothscroll_timeout = { w with pending := [] } := by
    rw [clearTimeoutW_eq w w.smoothscroll_timeout, hp]
  rw [scroll_of_cursor_some w c hc, scrollBody_eq, hm, h1, smoothscroll_succ]
  simp

/-! ### Claim C1 -/

/-- C1: with valid geometry, a re-center invocation runs the animation in
exactly round(1 + 4*smoothness) steps: the step count used is exactly
round(1 + 4*s) and is at least 1; the j-th tick sets the scroll offset to
destination - delta*(remaining_steps - 1) where remaining_steps = n - j + 1,
delta = d/n and destination = original offset + d; every tick (the first
included) advances the offset by the same increment d/n; the final tick sets
the offset exactly to the destination; and after the n ticks the trailing
zero-step firing moves nothing and leaves no timer pending. -/
theorem c1_animation_steps (w : World) (c d dest : ℚ) (n : ℕ)
    (hc : w.geom.cursorTop = some c)
    (hp : w.pending = [])
    (hs : 0 ≤ w.settings.center_cursor_editing_smoothness)
    (hd : d = c - (w.geom.rectTop + w.geom.rectBottom) / 2)
    (hdest : dest = w.scrollY + d)
    (hn : n = (round (1 + 4 * w.settings.center_cursor_editing_smoothness)).toNat) :
    ((n : ℤ) = round (1 + 4 * w.settings.center_cursor_editing_smoothness) ∧ 1 ≤ n) ∧
    (scroll w).scrollY = w.scrollY + d / (n : ℚ) ∧
    (∀ j : ℕ, 1 ≤ j → j ≤ n →
      (fireNextIter (j - 1) (scroll w)).scrollY = dest - (d / (n : ℚ)) * ((n - j : ℕ) : ℚ)) ∧
    (∀ j : ℕ, 1 ≤ j → j < n →
      (fireNextIter j (scroll w)).scrollY - (fireNextIter (j - 1) (scroll w)).scrollY = d / (n : ℚ)) ∧
    (fireNextIter (n - 1) (scroll w)).scrollY = dest ∧
    (fireNextIter n (scroll w)).scrollY = dest ∧
    (fireNextIter n (scroll w)).pending = [] := by
  have hround : 1 ≤ round (1 + 4 * w.settings.center_cursor_editing_smoothness) :=
    one_le_round_steps _ hs
  have hn1 : 1 ≤ n := by omega
  obtain ⟨m, hm⟩ : ∃ m, n = m + 1 := ⟨n - 1, by omega⟩
  have hcastn : ((n : ℕ) : ℚ) ≠ 0 := by
    exact_mod_cast Nat.pos_iff_ne_zero.mp (by omega)
  have hstart := scroll_start w c m hc (by cases h : w.smoothscroll_timeout <;> simp [clearTimeoutW, hp]) (by omega)
  have hdlift : (c - (w.geom.rectTop + w.geom.rectBottom) / 2) = d := hd.symm
  rw [hdlift] at hstart
  have hpend1 : (scroll w).pending = [{ id := w.nextId, delay := 5, callback := TimerCallback.smoothscrollStep (w.scrollY + d) (d / ((m + 1 : ℕ) : ℚ)) 5 m }] := by
    rw [hstart]
  have hy1 : (scroll w).scrollY = (w.scrollY + d) - (d / ((m + 1 : ℕ) : ℚ)) * (m : ℚ) := by
    rw [hstart]
  have hmcast : ((m + 1 : ℕ) : ℚ) = (n : ℚ) := by rw [hm]
  -- the j-th tick position
  have tick : ∀ j : ℕ, 1 ≤ j → j ≤ n →
      (fireNextIter (j - 1) (scroll w)).scrollY = dest - (d / (n : ℚ)) * ((n - j : ℕ) : ℚ) := by
    intro j hj1 hjn
    obtain ⟨j0, hj⟩ : ∃ j0, j = j0 + 1 := ⟨j - 1, by omega⟩
    subst hj
    rcases Nat.eq_zero_or_pos j0 with hj0 | hj0pos
    · subst hj0
      show (fireNextIter 0 (scroll w)).scrollY = _
      rw [fireNextIter, hy1, hmcast, hdest]
      have : (n - (0 + 1) : ℕ) = m := by omega
      rw [this]
    · obtain ⟨i2, dl2, hpend2, hy2⟩ :=
        chain_iter j0 (scroll w) w.nextId 5 (w.scrollY + d) (d / ((m + 1 : ℕ) : ℚ)) 5 m (by omega) hpend1
      have : (fireNextIter (j0 + 1 - 1) (scroll w)) = fireNextIter j0 (scroll w) := by norm_num
      rw [this, hy2, if_neg (Nat.pos_iff_ne_zero.mp hj0pos), hmcast, hdest]
      have : (m - j0 : ℕ) = (n - (j0 + 1) : ℕ) := by omega
      rw [this]
  refine ⟨⟨by omega, hn1⟩, ?_, tick, ?_, ?_, ?_, ?_⟩
  · -- first tick advances by d/n
    rw [hy1, hmcast, hm]
    push_cast
    field_simp
    ring
  · -- equal increments
    intro j hj1 hjn
    have h1 := tick j hj1 (by omega)
    have h2 := tick (j + 1) (by omega) (by omega)
    have : (j + 1 - 1 : ℕ) = j := by omega
    rw [this] at h2
    rw [h1, h2]
    have hcast : ((n - j : ℕ) : ℚ) = ((n - (j + 1) : ℕ) : ℚ) + 1 := by
      have : (n - j : ℕ) = (n - (j + 1) : ℕ) + 1 := by omega
      rw [this]
      push_cast
      ring
    rw [hcast]
    ring
  · -- final tick hits the destination exactly
    have h := tick n hn1 (le_refl n)
    rw [h]
    have : (n - n : ℕ) = 0 := by omega
    rw [this]
    norm_num
  · -- the trailing zero-step firing moves nothing
    have hdrain := chain_drain m (scroll w) w.nextId 5 (w.scrollY + d) (d / ((m + 1 : ℕ) : ℚ)) 5 hpend1
    have hmn : m + 1 = n := by omega
    rw [hmn] at hdrain
    rcases Nat.eq_zero_or_pos m with hm0 | hmpos
    · rw [hdrain.2, if_pos hm0, hy1, hdest, hm0]
      norm_num
    · rw [hdrain.2, if_neg (Nat.pos_iff_ne_zero.mp hmpos), hdest]
  · have hdrain := chain_drain m (scroll w) w.nextId 5 (w.scrollY + d) (d / ((m + 1 : ℕ) : ℚ)) 5 hpend1
    have hmn : m + 1 = n := by omega
    rw [hmn] at hdrain
    exact hdrain.1

/-- A concrete quiescent world for exercising C1: default settings
(editing smoothness 1), viewport 0..200 (midpoint 100), cursor at 200,
scroll offset 0. -/
def wC1 : World :=
  { settings := DEFAULT_SETTINGS
    editing := false
    mousedown := false
    mouseup := false
    smoothscroll_timeout := none
    scrollY := 0
    geom := { cursorTop := some 200, rectTop := 0, rectBottom := 200, somethingSelected := false }
    activeMarkdownView := true
    pending := []
    nextId := 0
    styleInjected := true }

/-- Witness for C1 at wC1: smoothness 1 gives 5 steps of 20 px each; the
5th tick rests exactly at destination 100 and the trailing firing leaves no
timer pending. -/
theorem c1_animation_steps_witness :
    (scroll wC1).scrollY = 20 ∧
    (fireNextIter 4 (scroll wC1)).scrollY = 100 ∧
    (fireNextIter 5 (scroll wC1)).pending = [] := by
  have h := c1_animation_steps wC1 200 100 100 5 rfl rfl
    (by norm_num [wC1, DEFAULT_SETTINGS])
    (by norm_num [wC1])
    (by norm_num [wC1])
    (by norm_num [wC1, DEFAULT_SETTINGS]; rfl)
  refine ⟨?_, ?_, ?_⟩
  · rw [h.2.1]
    norm_num [wC1]
  · exact h.2.2.2.2.1
  · exact h.2.2.2.2.2.2

/-! ### Claim C2: the single-animation-timer invariant -/

/-- The timer-handle invariant: pending timer ids are fresh-bounded and
pairwise distinct, and every pending animation timer's id is the one stored
in smoothscroll_timeout (hence there is at most one such timer). -/
def TimerInv (w : World) : Prop :=
  (∀ t ∈ w.pending, t.id < w.nextId) ∧
  w.pending.Pairwise (fun a b => a.id ≠ b.id) ∧
  (∀ t ∈ w.pending, t.callback.isAnim = true → w.smoothscroll_timeout = some t.id)

/-- Filtering the pending list preserves the invariant. -/
theorem timerInv_filter (w : World) (p : Timer → Bool) (hw : TimerInv w) :
    TimerInv { w with pending := w.pending.filter p } := by
  obtain ⟨h1, h2, h3⟩ := hw
  refine ⟨?_, ?_, ?_⟩
  · intro t ht
    exact h1 t (List.mem_of_mem_filter ht)
  · exact h2.filter p
  · intro t ht ha
    exact h3 t (List.mem_of_mem_filter ht) ha

/-- clearTimeout preserves the invariant. -/
theorem timerInv_clearTimeout (w : World) (h : Option ℕ) (hw : TimerInv w) :
    TimerInv (clearTimeoutW w h) := by
  cases h with
  | none => exact hw
  | some i => exact timerInv_filter w _ hw

/-- After clearing the stored handle no animation timer is pending. -/
theorem no_anim_after_clear (w : World) (hw : TimerInv w) :
    ∀ t ∈ (clearTimeoutW w w.smoothscroll_timeout).pending, t.callback.isAnim = false := by
  intro t ht
  cases hb : t.callback.isAnim with
  | false => rfl
  | true =>
    exfalso
    cases hh : w.smoothscroll_timeout with
    | none =>
      rw [hh] at ht
      have := hw.2.2 t ht hb
      rw [hh] at this
      exact Option.noConfusion this
    | some i =>
      rw [hh] at ht
      simp only [clearTimeoutW, List.mem_filter] at ht
      have := hw.2.2 t ht.1 hb
      rw [hh] at this
      have hid : t.id = i := by
        exact Option.some.injEq _ _ ▸ (Option.some.inj this).symm
      simp [hid] at ht

/-- Scheduling the (non-animation) deferred selection check preserves the
invariant. -/
theorem timerInv_setTimeout_selectionCheck (w : World) (delay : ℚ) (hw : TimerInv w) :
    TimerInv (setTimeoutW w TimerCallback.selectionCheck delay).1 := by
  obtain ⟨h1, h2, h3⟩ := hw
  refine ⟨?_, ?_, ?_⟩
  · intro t ht
    simp only [setTimeoutW, List.mem_append, List.mem_singleton] at ht
    rcases ht with ht | ht
    · exact Nat.lt_succ_of_lt (h1 t ht)
    · rw [ht]
      exact Nat.lt_succ_self _
  · simp only [setTimeoutW]
    rw [List.pairwise_append]
    refine ⟨h2, List.pairwise_singleton _ _, ?_⟩
    intro a ha b hb
    rw [List.mem_singleton] at hb
    rw [hb]
    exact Nat.ne_of_lt (h1 a ha)
  · intro t ht ha
    simp only [setTimeoutW, List.mem_append, List.mem_singleton] at ht
    rcases ht with ht | ht
    · exact h3 t ht ha
    · rw [ht] at ha
      exact absurd ha (by simp [TimerCallback.isAnim])

/-- When no animation timer is pending, a smoothscroll invocation preserves
the invariant (it schedules at most one animation timer and stores exactly
its id in the handle). -/
theorem timerInv_smoothscroll (w : World) (dest d tm : ℚ) (k : ℕ)
    (hw : TimerInv w) (hanim : ∀ t ∈ w.pending, t.callback.isAnim = false) :
    TimerInv (smoothscroll w dest d tm k) := by
  cases k with
  | zero => exact hw
  | succ k0 =>
    rw [smoothscroll_succ]
    obtain ⟨h1, h2, h3⟩ := hw
    refine ⟨?_, ?_, ?_⟩
    · intro t ht
      simp only [List.mem_append, List.mem_singleton] at ht
      rcases ht with ht | ht
      · exact Nat.lt_succ_of_lt (h1 t ht)
      · rw [ht]
        exact Nat.lt_succ_self _
    · rw [List.pairwise_append]
      refine ⟨h2, List.pairwise_singleton _ _, ?_⟩
      intro a ha b hb
      rw [List.mem_singleton] at hb
      rw [hb]
      exact Nat.ne_of_lt (h1 a ha)
    · intro t ht ha
      simp only [List.mem_append, List.mem_singleton] at ht
      rcases ht with ht | ht
      · rw [hanim t ht] at ha
        exact absurd ha (by simp)
      · rw [ht]

/-- scroll preserves the invariant. -/
theorem timerInv_scroll (w : World) (hw : TimerInv w) : TimerInv (scroll w) := by
  cases hc : w.geom.cursorTop with
  | none => rw [scroll_of_cursor_none w hc]; exact hw
  | some c =>
    rw [scroll_of_cursor_some w c hc, scrollBody_eq]
    exact timerInv_smoothscroll _ _ _ _ _
      (timerInv_clearTimeout w _ hw) (no_anim_after_clear w hw)

/-- The deferred selection check preserves the invariant. -/
theorem timerInv_selectionCheckBody (w : World) (hw : TimerInv w) :
    TimerInv (selectionCheckBody w) := by
  unfold selectionCheckBody
  split
  · exact hw
  · split
    · exact hw
    · split
      · exact hw
      · split
        · exact hw
        · exact timerInv_scroll w hw

/-- fireTimer reduction when the timer is not pending. -/
theorem fireTimer_not_found (w : World) (i : ℕ)
    (hf : w.pending.find? (fun t => t.id = i) = none) :
    fireTimer w i = w := by
  unfold fireTimer
  rw [hf]

/-- fireTimer reduction when the timer is pending. -/
theorem fireTimer_found (w : World) (i : ℕ) (t : Timer)
    (hf : w.pending.find? (fun t => t.id = i) = some t) :
    fireTimer w i =
      runCallback { w with pending := w.pending.filter (fun t => t.id ≠ i) } t.callback := by
  unfold fireTimer
  rw [hf]

/-- Firing any pending timer preserves the invariant. -/
theorem timerInv_fireTimer (w : World) (i : ℕ) (hw : TimerInv w) :
    TimerInv (fireTimer w i) := by
  cases hf : w.pending.find? (fun t => t.id = i) with
  | none =>
    rw [fireTimer_not_found w i hf]
    exact hw
  | some t =>
    rw [fireTimer_found w i t hf]
    have hmem : t ∈ w.pending := List.mem_of_find?_eq_some hf
    have hpt : t.id = i := by simpa using List.find?_some hf
    have hw' : TimerInv { w with pending := w.pending.filter (fun t => t.id ≠ i) } :=
      timerInv_filter w _ hw
    cases hcb : t.callback with
    | selectionCheck =>
      simp only [runCallback]
      exact timerInv_selectionCheckBody _ hw'
    | smoothscrollStep dest d tm k =>
      simp only [runCallback]
      refine timerInv_smoothscroll _ _ _ _ _ hw' ?_
      intro u hu
      cases hb : u.callback.isAnim with
      | false => rfl
      | true =>
        exfalso
        simp only [List.mem_filter] at hu
        have h1 := hw.2.2 u hu.1 hb
        have h2 := hw.2.2 t hmem (by rw [hcb]; rfl)
        rw [h1] at h2
        have hui : u.id = t.id := Option.some.inj h2
        rw [hpt] at hui
        simp [hui] at hu

/-- Every event handler preserves the invariant. -/
theorem timerInv_stepEv (w : World) (e : Event) (hw : TimerInv w) :
    TimerInv (stepEv w e) := by
  cases e with
  | edit => exact timerInv_scroll _ ⟨hw.1, hw.2.1, hw.2.2⟩
  | mousedown => exact ⟨hw.1, hw.2.1, hw.2.2⟩
  | mouseup => exact ⟨hw.1, hw.2.1, hw.2.2⟩
  | selectionchange =>
    show TimerInv (selectionchange_callback w)
    unfold selectionchange_callback
    split
    · exact hw
    · split
      · exact ⟨hw.1, hw.2.1, hw.2.2⟩
      · exact timerInv_setTimeout_selectionCheck w 10 hw
  | fire i => exact timerInv_fireTimer w i hw

/-- The invariant holds along any event sequence from the post-onload
state. -/
theorem timerInv_runEvents (w : World) (es : List Event) (hw : TimerInv w) :
    TimerInv (runEvents w es) := by
  induction es generalizing w with
  | nil => exact hw
  | cons e es ih => exact ih (stepEv w e) (timerInv_stepEv w e hw)

/-- The invariant bounds the number of live animation timers by one. -/
theorem animTimers_length_le_one (w : World) (hw : TimerInv w) :
    (animTimers w).length ≤ 1 := by
  obtain ⟨-, h2, h3⟩ := hw
  cases hl : animTimers w with
  | nil => simp
  | cons a l =>
    cases l with
    | nil => simp
    | cons b l2 =>
      exfalso
      have hpair : (animTimers w).Pairwise (fun x y => x.id ≠ y.id) := h2.filter _
      rw [hl] at hpair
      have hab : a.id ≠ b.id := (List.pairwise_cons.mp hpair).1 b (by simp)
      have hamem : a ∈ animTimers w := by rw [hl]; simp
      have hbmem : b ∈ animTimers w := by rw [hl]; simp
      simp only [animTimers, List.mem_filter] at hamem hbmem
      have ha := h3 a hamem.1 hamem.2
      have hb := h3 b hbmem.1 hbmem.2
      rw [ha] at hb
      exact hab (Option.some.inj hb)

/-- Invoking scroll and then letting its timer chain run to quiescence
leaves the offset exactly at current scroll + cursor offset from midpoint,
with nothing pending. -/
theorem scroll_drain (w : World) (c : ℚ) (n : ℕ)
    (hc : w.geom.cursorTop = some c)
    (hp : (clearTimeoutW w w.smoothscroll_timeout).pending = [])
    (hs : 0 ≤ w.settings.center_cursor_editing_smoothness)
    (hn : n = (round (1 + 4 * w.settings.center_cursor_editing_smoothness)).toNat) :
    (fireNextIter n (scroll w)).scrollY = w.scrollY + (c - (w.geom.rectTop + w.geom.rectBottom) / 2) ∧
    (fireNextIter n (scroll w)).pending = [] := by
  have hround : 1 ≤ round (1 + 4 * w.settings.center_cursor_editing_smoothness) :=
    one_le_round_steps _ hs
  have hn1 : 1 ≤ n := by omega
  obtain ⟨m, hm⟩ : ∃ m, n = m + 1 := ⟨n - 1, by omega⟩
  have hstart := scroll_start w c m hc hp (by omega)
  have hpend1 : (scroll w).pending = [{ id := w.nextId, delay := 5, callback := TimerCallback.smoothscrollStep (w.scrollY + (c - (w.geom.rectTop + w.geom.rectBottom) / 2)) ((c - (w.geom.rectTop + w.geom.rectBottom) / 2) / ((m + 1 : ℕ) : ℚ)) 5 m }] := by
    rw [hstart]
  have hdrain := chain_drain m (scroll w) w.nextId 5 _ _ 5 hpend1
  rw [hm]
  refine ⟨?_, hdrain.1⟩
  rcases Nat.eq_zero_or_pos m with hm0 | hmpos
  · rw [hdrain.2, if_pos hm0, hstart]
    subst hm0
    norm_num
  · rw [hdrain.2, if_neg (Nat.pos_iff_ne_zero.mp hmpos)]

/-! ### Claim C2 -/

/-- C2: (a) along every event sequence from the post-onload state, at most
one scroll-animation timer is live at any point; (b) starting a re-center
while another animation is in flight (its timer pending and its id in the
handle) cancels the first animation, and draining the new chain rests the
viewport exactly at the second animation's destination, with no timer left. -/
theorem c2_single_timer_and_preemption :
    (∀ (s : ScrollingPluginSettings) (g : EditorGeometry) (a : Bool) (y : ℚ) (es : List Event),
      (animTimers (runEvents (initWorld s g a y) es)).length ≤ 1) ∧
    (∀ (w : World) (i : ℕ) (dl1 dest1 d1 tm1 : ℚ) (k1 : ℕ) (c : ℚ) (n : ℕ),
      w.pending = [{ id := i, delay := dl1, callback := TimerCallback.smoothscrollStep dest1 d1 tm1 k1 }] →
      w.smoothscroll_timeout = some i →
      w.geom.cursorTop = some c →
      0 ≤ w.settings.center_cursor_editing_smoothness →
      n = (round (1 + 4 * w.settings.center_cursor_editing_smoothness)).toNat →
      (fireNextIter n (scroll w)).scrollY = w.scrollY + (c - (w.geom.rectTop + w.geom.rectBottom) / 2) ∧
      (fireNextIter n (scroll w)).pending = []) := by
  constructor
  · intro s g a y es
    refine animTimers_length_le_one _ (timerInv_runEvents _ es ?_)
    refine ⟨?_, ?_, ?_⟩ <;> simp [initWorld]
  · intro w i dl1 dest1 d1 tm1 k1 c n hp hh hc hs hn
    refine scroll_drain w c n hc ?_ hs hn
    rw [hh]
    simp [clearTimeoutW, hp]

/-- A world in the middle of a first animation (timer id 3 pending toward
destination 500), used to exercise C2's preemption part. -/
def wC2 : World :=
  { settings := DEFAULT_SETTINGS
    editing := false
    mousedown := false
    mouseup := false
    smoothscroll_timeout := some 3
    scrollY := 400
    geom := { cursorTop := some 120, rectTop := 0, rectBottom := 200, somethingSelected := false }
    activeMarkdownView := true
    pending := [{ id := 3, delay := 5, callback := TimerCallback.smoothscrollStep 500 50 5 7 }]
    nextId := 4
    styleInjected := true }

/-- Witness for C2: at most one animation timer along a concrete trace, and
preempting the in-flight animation toward 500 with a re-center from offset
400 and cursor offset 20 rests the viewport at 420 (the second destination),
not at 500. -/
theorem c2_single_timer_and_preemption_witness :
    (animTimers (runEvents (initWorld DEFAULT_SETTINGS wC2.geom true 0) [Event.edit, Event.selectionchange, Event.fire 1])).length ≤ 1 ∧
    (fireNextIter 5 (scroll wC2)).scrollY = 420 ∧
    (fireNextIter 5 (scroll wC2)).pending = [] := by
  have hb := c2_single_timer_and_preemption.2 wC2 3 5 500 50 5 7 120 5 rfl rfl rfl
    (by norm_num [wC2, DEFAULT_SETTINGS])
    (by norm_num [wC2, DEFAULT_SETTINGS]; rfl)
  refine ⟨c2_single_timer_and_preemption.1 DEFAULT_SETTINGS wC2.geom true 0 _, ?_, hb.2⟩
  rw [hb.1]
  norm_num [wC2]

/-! ### Claim C3 -/

/-- A world at the moment the debounced selection-change check fires on a
pure navigation move: not editing, no mouse interaction, active markdown
view, nothing selected; editing smoothness 0, moving smoothness 4. -/
def wC3 : World :=
  { settings :=
      { DEFAULT_SETTINGS with
          center_cursor_editing_smoothness := 0
          center_cursor_moving_smoothness := 4 }
    editing := false
    mousedown := false
    mouseup := false
    smoothscroll_timeout := none
    scrollY := 0
    geom := { cursorTop := some 200, rectTop := 0, rectBottom := 200, somethingSelected := false }
    activeMarkdownView := true
    pending := []
    nextId := 0
    styleInjected := true }

/-- C3 fails on the code: the navigation (selection-change) re-center reads
center_cursor_editing_smoothness, not center_cursor_moving_smoothness.  At
wC3 (editing smoothness 0, moving smoothness 4) the debounced check jumps
instantly to the destination 100 in a single step — the step count 1 comes
from the editing setting, while the claim's navigating setting would give
round(1 + 4*4) = 17 steps; and for every value q of the moving smoothness
the same single-step jump happens. -/
theorem c3_navigation_uses_editing_smoothness :
    (selectionCheckBody wC3).scrollY = 100 ∧
    (selectionCheckBody wC3).pending = [{ id := 0, delay := 5, callback := TimerCallback.smoothscrollStep 100 100 5 0 }] ∧
    round (1 + 4 * wC3.settings.center_cursor_editing_smoothness) = 1 ∧
    round (1 + 4 * wC3.settings.center_cursor_moving_smoothness) = 17 ∧
    (∀ q : ℚ, (selectionCheckBody { wC3 with settings := { wC3.settings with center_cursor_moving_smoothness := q } }).scrollY = 100) := by
  have hround : (round (1 + 4 * (0 : ℚ))).toNat = 0 + 1 := by norm_num
  have key : ∀ (w : World), w.settings.center_cursor_editing_smoothness = 0 →
      w.mousedown = false → w.editing = false → w.activeMarkdownView = true →
      w.geom.somethingSelected = false → w.geom.cursorTop = some 200 →
      w.geom.rectTop = 0 → w.geom.rectBottom = 200 → w.scrollY = 0 →
      w.smoothscroll_timeout = none → w.pending = [] → w.nextId = 0 →
      (selectionCheckBody w).scrollY = 100 ∧
      (selectionCheckBody w).pending = [{ id := 0, delay := 5, callback := TimerCallback.smoothscrollStep 100 100 5 0 }] := by
    intro w hsm hmd hed hac hsel hc hrt hrb hy hh hp hnid
    have hbody : selectionCheckBody w = scroll w := by
      unfold selectionCheckBody
      rw [hmd, hed, hac, hsel]
      simp
    have hstart := scroll_start w 200 0 hc (by rw [hh]; exact hp) (by rw [hsm]; exact hround)
    rw [hbody, hstart]
    rw [hrt, hrb, hy, hnid]
    norm_num
  refine ⟨(key wC3 rfl rfl rfl rfl rfl rfl rfl rfl rfl rfl rfl rfl).1,
          (key wC3 rfl rfl rfl rfl rfl rfl rfl rfl rfl rfl rfl rfl).2, ?_, ?_, ?_⟩
  · show round (1 + 4 * (0 : ℚ)) = 1
    norm_num
  · show round (1 + 4 * (4 : ℚ)) = 17
    norm_num
  · intro q
    exact (key _ rfl rfl rfl rfl rfl rfl rfl rfl rfl rfl rfl rfl).1

/-! ### Claim C4 -/

/-- smoothscroll never reads or writes the settings. -/
theorem smoothscroll_set (w : World) (s' : ScrollingPluginSettings) (dest d tm : ℚ) (k : ℕ) :
    smoothscroll { w with settings := s' } dest d tm k = { (smoothscroll w dest d tm k) with settings := s' } := by
  cases k with
  | zero => rfl
  | succ k0 => simp [smoothscroll, setTimeoutW]

/-- clearTimeout never reads or writes the settings. -/
theorem clearTimeoutW_set (w : World) (s' : ScrollingPluginSettings) (h : Option ℕ) :
    clearTimeoutW { w with settings := s' } h = { (clearTimeoutW w h) with settings := s' } := by
  cases h <;> rfl

/-- scroll reads center_cursor_editing_smoothness and nothing else of the
settings: any settings change preserving that field commutes with scroll. -/
theorem scroll_settings_update (w : World) (s' : ScrollingPluginSettings)
    (hs : s'.center_cursor_editing_smoothness = w.settings.center_cursor_editing_smoothness) :
    scroll { w with settings := s' } = { (scroll w) with settings := s' } := by
  cases hc : w.geom.cursorTop with
  | none =>
    rw [scroll_of_cursor_none ({ w with settings := s' }) hc, scroll_of_cursor_none w hc]
  | some c =>
    rw [scroll_of_cursor_some ({ w with settings := s' }) c hc, scroll_of_cursor_some w c hc,
      scrollBody_eq, scrollBody_eq]
    simp [clearTimeoutW_set, smoothscroll_set, hs]

/-- C4: the re-center computation never consults the dead-zone radius
settings: (a) overriding center_cursor_editing_distance and
center_cursor_moving_distance with any two values commutes with scroll (the
behaviour is identical except for carrying the overridden values verbatim);
(b) with a cursor coordinate available, an animation is always started (no
proximity check skips it) and its destination is exactly the current scroll
offset plus (cursor_y - viewport midpoint). -/
theorem c4_deadzone_ignored :
    (∀ (w : World) (a b : ℚ),
      scroll { w with settings := { w.settings with center_cursor_editing_distance := a, center_cursor_moving_distance := b } } =
        { (scroll w) with settings := { w.settings with center_cursor_editing_distance := a, center_cursor_moving_distance := b } }) ∧
    (∀ (w : World) (c : ℚ) (n : ℕ),
      w.geom.cursorTop = some c →
      w.pending = [] →
      0 ≤ w.settings.center_cursor_editing_smoothness →
      n = (round (1 + 4 * w.settings.center_cursor_editing_smoothness)).toNat →
      (scroll w).pending ≠ [] ∧
      (fireNextIter n (scroll w)).scrollY = w.scrollY + (c - (w.geom.rectTop + w.geom.rectBottom) / 2)) := by
  constructor
  · intro w a b
    exact scroll_settings_update w _ rfl
  · intro w c n hc hp hs hn
    have hclear : (clearTimeoutW w w.smoothscroll_timeout).pending = [] := by
      cases hh : w.smoothscroll_timeout <;> simp [clearTimeoutW, hp]
    constructor
    · have hround := one_le_round_steps _ hs
      obtain ⟨m, hm⟩ : ∃ m, (round (1 + 4 * w.settings.center_cursor_editing_smoothness)).toNat = m + 1 :=
        ⟨(round (1 + 4 * w.settings.center_cursor_editing_smoothness)).toNat - 1, by omega⟩
      rw [scroll_start w c m hc hclear hm]
      simp
    · exact (scroll_drain w c n hc hclear hs hn).1

/-- A quiescent world with cursor 30 px below the midpoint, for C4. -/
def wC4 : World :=
  { settings := DEFAULT_SETTINGS
    editing := false
    mousedown := false
    mouseup := false
    smoothscroll_timeout := none
    scrollY := 50
    geom := { cursorTop := some 130, rectTop := 0, rectBottom := 200, somethingSelected := false }
    activeMarkdownView := true
    pending := []
    nextId := 0
    styleInjected := true }

/-- Witness for C4 at wC4: overriding the dead-zone radii (0 and 100)
commutes with scroll, an animation starts although the cursor is only 30 px
from the midpoint, and it rests at 50 + 30 = 80. -/
theorem c4_deadzone_ignored_witness :
    scroll { wC4 with settings := { wC4.settings with center_cursor_editing_distance := 0, center_cursor_moving_distance := 100 } } =
      { (scroll wC4) with settings := { wC4.settings with center_cursor_editing_distance := 0, center_cursor_moving_distance := 100 } } ∧
    (scroll wC4).pending ≠ [] ∧
    (fireNextIter 5 (scroll wC4)).scrollY = 80 := by
  have hb := c4_deadzone_ignored.2 wC4 130 5 rfl rfl
    (by norm_num [wC4, DEFAULT_SETTINGS])
    (by norm_num [wC4, DEFAULT_SETTINGS]; rfl)
  refine ⟨c4_deadzone_ignored.1 wC4 0 100, hb.1, ?_⟩
  rw [hb.2]
  norm_num [wC4]

/-! ### Claim C5 -/

/-- C5: every document-edit event sets editing and performs its one
re-center synchronously inside the handler (the first tick happens
immediately and exactly one animation chain timer is scheduled — no
debounce); a selection-change arriving within the delay window schedules
the debounced check, and that check finds editing still true, clears it and
performs no second re-center: the offset and the pending animation are
untouched, only the debounce timer is consumed. -/
theorem c5_edit_synchronous_and_suppression (w : World) (c : ℚ) (n : ℕ)
    (hmd : w.mousedown = false) (hmu : w.mouseup = false)
    (hc : w.geom.cursorTop = some c)
    (hp : w.pending = [])
    (hs : 0 ≤ w.settings.center_cursor_editing_smoothness)
    (hn : n = (round (1 + 4 * w.settings.center_cursor_editing_smoothness)).toNat) :
    (edit_callback w).editing = true ∧
    (edit_callback w).scrollY = w.scrollY + (c - (w.geom.rectTop + w.geom.rectBottom) / 2) / (n : ℚ) ∧
    (edit_callback w).pending = [{ id := w.nextId, delay := 5, callback := TimerCallback.smoothscrollStep (w.scrollY + (c - (w.geom.rectTop + w.geom.rectBottom) / 2)) ((c - (w.geom.rectTop + w.geom.rectBottom) / 2) / (n : ℚ)) 5 (n - 1) }] ∧
    (fireTimer (selectionchange_callback (edit_callback w)) (w.nextId + 1)).editing = false ∧
    (fireTimer (selectionchange_callback (edit_callback w)) (w.nextId + 1)).scrollY = (edit_callback w).scrollY ∧
    (fireTimer (selectionchange_callback (edit_callback w)) (w.nextId + 1)).pending = (edit_callback w).pending := by
  have hround : 1 ≤ round (1 + 4 * w.settings.center_cursor_editing_smoothness) :=
    one_le_round_steps _ hs
  have hn1 : 1 ≤ n := by omega
  obtain ⟨m, hm⟩ : ∃ m, n = m + 1 := ⟨n - 1, by omega⟩
  have hcastn : ((n : ℕ) : ℚ) ≠ 0 := by
    exact_mod_cast Nat.pos_iff_ne_zero.mp (by omega)
  have hstart := scroll_start { w with editing := true } c m hc
    (by cases hh : w.smoothscroll_timeout <;> simp [clearTimeoutW, hh, hp])
    (by show (round (1 + 4 * w.settings.center_cursor_editing_smoothness)).toNat = m + 1; omega)
  have hw1 : edit_callback w = scroll { w with editing := true } := rfl
  rw [hw1, hstart]
  have hmn : ((m + 1 : ℕ) : ℚ) = (n : ℚ) := by rw [hm]
  have hm1 : m = n - 1 := by omega
  refine ⟨rfl, ?_, ?_, ?_⟩
  · show w.scrollY + (c - (w.geom.rectTop + w.geom.rectBottom) / 2) -
      (c - (w.geom.rectTop + w.geom.rectBottom) / 2) / ((m + 1 : ℕ) : ℚ) * (m : ℚ) = _
    rw [hmn]
    have hmq : (m : ℚ) = (n : ℚ) - 1 := by
      rw [hm]
      push_cast
      ring
    rw [hmq]
    field_simp
    ring
  · rw [hmn, hm1]
  · rw [hmn, hm1]
    unfold selectionchange_callback
    simp only [hmd, hmu, Bool.false_eq_true, if_false, setTimeoutW]
    unfold fireTimer
    simp only [List.find?, List.filter]
    have hne : (decide (w.nextId = w.nextId + 1)) = false := by simp
    simp only [hne, decide_eq_true_eq, Nat.add_right_cancel_iff]
    simp only [decide_eq_true_eq] at *
    simp [runCallback, selectionCheckBody, hmd]

/-- A quiescent world for C5: cursor 60 px below the midpoint, smoothness 1. -/
def wC5 : World :=
  { settings := DEFAULT_SETTINGS
    editing := false
    mousedown := false
    mouseup := false
    smoothscroll_timeout := none
    scrollY := 10
    geom := { cursorTop := some 160, rectTop := 0, rectBottom := 200, somethingSelected := false }
    activeMarkdownView := true
    pending := []
    nextId := 0
    styleInjected := true }

/-- Witness for C5 at wC5: the edit handler re-centers synchronously (first
20%-tick moves 10 → 22 immediately), and the debounced selection-change
check afterwards clears editing without touching the offset. -/
theorem c5_edit_synchronous_and_suppression_witness :
    (edit_callback wC5).editing = true ∧
    (edit_callback wC5).scrollY = 22 ∧
    (fireTimer (selectionchange_callback (edit_callback wC5)) 1).editing = false ∧
    (fireTimer (selectionchange_callback (edit_callback wC5)) 1).scrollY = (edit_callback wC5).scrollY := by
  have h := c5_edit_synchronous_and_suppression wC5 160 5 rfl rfl rfl rfl
    (by norm_num [wC5, DEFAULT_SETTINGS])
    (by norm_num [wC5, DEFAULT_SETTINGS]; rfl)
  exact ⟨h.1, by rw [h.2.1]; norm_num [wC5], h.2.2.2.1, h.2.2.2.2.1⟩

/-! ### Claim C6 -/

/-- C6: after mouse-down then mouse-up, the next selection-change is
ignored entirely: the mouseup flag is consumed, no deferred check is
scheduled (the pending list is untouched) and the scroll offset is
unchanged — the whole interaction only resets the two mouse flags. -/
theorem c6_click_selectionchange_ignored (w : World) :
    selectionchange_callback (mouseup_callback (mousedown_callback w)) =
      { w with mousedown := false, mouseup := false } ∧
    (selectionchange_callback (mouseup_callback (mousedown_callback w))).pending = w.pending ∧
    (selectionchange_callback (mouseup_callback (mousedown_callback w))).scrollY = w.scrollY ∧
    (selectionchange_callback (mouseup_callback (mousedown_callback w))).mouseup = false := by
  have h : selectionchange_callback (mouseup_callback (mousedown_callback w)) =
      { w with mousedown := false, mouseup := false } := by
    unfold mousedown_callback mouseup_callback selectionchange_callback
    simp
  exact ⟨h, by rw [h], by rw [h], by rw [h]⟩

/-! ### Claim C7 -/

/-- C7: missing geometry aborts silently with no state change at all: the
debounced check that finds no active markdown editor returns the world
unchanged, and scroll with no cursor coordinate from the layout returns the
world unchanged (offset, timers, handle and flags all untouched). -/
theorem c7_missing_geometry_noop (w : World) :
    (w.mousedown = false → w.editing = false → w.activeMarkdownView = false →
      selectionCheckBody w = w) ∧
    (w.geom.cursorTop = none → scroll w = w) := by
  constructor
  · intro hmd hed hac
    unfold selectionCheckBody
    rw [hmd, hed, hac]
    simp
  · intro hc
    exact scroll_of_cursor_none w hc

/-- A world whose debounced check finds no active markdown view (C7). -/
def wC7a : World :=
  { settings := DEFAULT_SETTINGS
    editing := false
    mousedown := false
    mouseup := false
    smoothscroll_timeout := none
    scrollY := 33
    geom := { cursorTop := some 160, rectTop := 0, rectBottom := 200, somethingSelected := false }
    activeMarkdownView := false
    pending := []
    nextId := 2
    styleInjected := true }

/-- A world whose layout yields no cursor coordinate (C7). -/
def wC7b : World :=
  { settings := DEFAULT_SETTINGS
    editing := true
    mousedown := false
    mouseup := false
    smoothscroll_timeout := some 0
    scrollY := 75
    geom := { cursorTop := none, rectTop := 0, rectBottom := 200, somethingSelected := false }
    activeMarkdownView := true
    pending := [{ id := 0, delay := 5, callback := TimerCallback.smoothscrollStep 90 3 5 2 }]
    nextId := 1
    styleInjected := true }

/-- Witness for C7: both aborts leave the concrete worlds untouched. -/
theorem c7_missing_geometry_noop_witness :
    selectionCheckBody wC7a = wC7a ∧ scroll wC7b = wC7b :=
  ⟨(c7_missing_geometry_noop wC7a).1 rfl rfl rfl, (c7_missing_geometry_noop wC7b).2 rfl⟩

/-! ### Claim C8 -/

/-- A world whose animation is at its final counted tick (step counter 1,
destination 100), for C8. -/
def wC8 : World :=
  { settings := DEFAULT_SETTINGS
    editing := false
    mousedown := false
    mouseup := false
    smoothscroll_timeout := some 7
    scrollY := 80
    geom := { cursorTop := some 160, rectTop := 0, rectBottom := 200, somethingSelected := false }
    activeMarkdownView := true
    pending := [{ id := 7, delay := 5, callback := TimerCallback.smoothscrollStep 100 20 5 1 }]
    nextId := 8
    styleInjected := true }

/-- C8 as stated is false on the code: at wC8 the final counted tick does
set the offset to the destination 100, but it schedules one further timer
(the pending list is not empty afterwards) and the animation handle is not
cleared (it still holds a timer id). -/
theorem c8_counterexample :
    (fireNext wC8).scrollY = 100 ∧
    (fireNext wC8).pending ≠ [] ∧
    (fireNext wC8).smoothscroll_timeout ≠ none := by
  have h := fireNext_chain_succ wC8 7 5 100 20 5 0 rfl
  rw [h]
  refine ⟨by norm_num, by simp, by simp⟩

/-- C8 amended: the final counted tick sets the offset exactly to the
destination and schedules one trailing zero-step timer; firing that timer
performs no scroll movement, schedules nothing and leaves the pending list
empty — so no further scroll movement ever occurs — but the handle keeps
the last timer id instead of being cleared. -/
theorem c8_final_tick_amended (w : World) (i : ℕ) (dl dest d tm : ℚ)
    (hp : w.pending = [{ id := i, delay := dl, callback := TimerCallback.smoothscrollStep dest d tm 1 }]) :
    (fireNext w).scrollY = dest ∧
    (fireNext w).pending = [{ id := w.nextId, delay := tm, callback := TimerCallback.smoothscrollStep dest d tm 0 }] ∧
    (fireNext (fireNext w)).scrollY = dest ∧
    (fireNext (fireNext w)).pending = [] ∧
    (fireNext (fireNext w)).smoothscroll_timeout = (fireNext w).smoothscroll_timeout ∧
    fireNext (fireNext w) = { fireNext w with pending := [] } := by
  have h1 := fireNext_chain_succ w i dl dest d tm 0 hp
  have hp2 : (fireNext w).pending = [{ id := w.nextId, delay := tm, callback := TimerCallback.smoothscrollStep dest d tm 0 }] := by
    rw [h1]
  have h2 := fireNext_chain_zero (fireNext w) w.nextId tm dest d tm hp2
  refine ⟨by rw [h1]; simp, hp2, by rw [h2, h1]; simp, by rw [h2], by rw [h2], h2⟩

/-- Witness for the amended C8 at wC8: the final tick rests at 100 and
after the trailing no-op firing nothing is pending. -/
theorem c8_final_tick_amended_witness :
    (fireNext wC8).scrollY = 100 ∧ (fireNext (fireNext wC8)).pending = [] := by
  have h := c8_final_tick_amended wC8 7 5 100 20 5 rfl
  exact ⟨h.1, h.2.2.2.1⟩

/-! ### Claim C9 -/

/-- A world being unloaded while an animation timer is still pending. -/
def wC9 : World :=
  { settings := DEFAULT_SETTINGS
    editing := false
    mousedown := false
    mouseup := false
    smoothscroll_timeout := some 2
    scrollY := 10
    geom := { cursorTop := some 160, rectTop := 0, rectBottom := 200, somethingSelected := false }
    activeMarkdownView := true
    pending := [{ id := 2, delay := 5, callback := TimerCallback.smoothscrollStep 300 30 5 4 }]
    nextId := 3
    styleInjected := true }

/-- C9 fails on the code: onunload only removes the injected style element.
At wC9 (a smoothscroll timer pending) the unload leaves the pending timer
untouched and the handle still set — the claimed cancellation of the
pending scroll-animation timer does not happen; in general onunload is
exactly the style removal. -/
theorem c9_unload_keeps_timer :
    (onunload wC9).styleInjected = false ∧
    (onunload wC9).pending = wC9.pending ∧
    wC9.pending ≠ [] ∧
    (onunload wC9).smoothscroll_timeout = some 2 ∧
    (∀ w : World, onunload w = { w with styleInjected := false }) :=
  ⟨rfl, rfl, by simp [wC9], rfl, fun w => rfl⟩

/-! ### Claim C10 -/

/-- clearTimeout does not touch the editing flag. -/
theorem clearTimeoutW_editing (w : World) (h : Option ℕ) :
    (clearTimeoutW w h).editing = w.editing := by
  cases h <;> rfl

/-- smoothscroll does not touch the editing flag. -/
theorem smoothscroll_editing (w : World) (dest d tm : ℚ) (k : ℕ) :
    (smoothscroll w dest d tm k).editing = w.editing := by
  cases k with
  | zero => rfl
  | succ k0 => rw [smoothscroll_succ]

/-- scroll does not touch the editing flag. -/
theorem scroll_editing (w : World) : (scroll w).editing = w.editing := by
  cases hc : w.geom.cursorTop with
  | none => rw [scroll_of_cursor_none w hc]
  | some c =>
    rw [scroll_of_cursor_some w c hc, scrollBody_eq, smoothscroll_editing, clearTimeoutW_editing]

/-- C10: once set, the editing flag survives every handler except the
debounced selection-change check: the edit handler leaves it true, the
mouse handlers and the selection-change scheduler never reset it, firing
any animation timer (or a timer that is not pending) never resets it; and
when the debounced check runs with editing still true (and no drag), it
only clears the flag and performs no re-center — the world is unchanged
except editing := false. -/
theorem c10_editing_flag_lifecycle (w : World) (i : ℕ) :
    (edit_callback w).editing = true ∧
    (w.editing = true → (mousedown_callback w).editing = true) ∧
    (w.editing = true → (mouseup_callback w).editing = true) ∧
    (w.editing = true → (selectionchange_callback w).editing = true) ∧
    (w.editing = true → (∀ t ∈ w.pending, t.id = i → t.callback.isAnim = true) →
      (fireTimer w i).editing = true) ∧
    (w.editing = true → w.mousedown = false →
      selectionCheckBody w = { w with editing := false }) := by
  refine ⟨?_, fun h => h, fun h => h, ?_, ?_, ?_⟩
  · rw [show edit_callback w = scroll { w with editing := true } from rfl, scroll_editing]
  · intro h
    unfold selectionchange_callback
    split
    · exact h
    · split
      · exact h
      · exact h
  · intro h hanim
    cases hf : w.pending.find? (fun t => t.id = i) with
    | none =>
      rw [fireTimer_not_found w i hf]
      exact h
    | some t =>
      rw [fireTimer_found w i t hf]
      have hmem : t ∈ w.pending := List.mem_of_find?_eq_some hf
      have hpt : t.id = i := by simpa using List.find?_some hf
      have hta := hanim t hmem hpt
      cases hcb : t.callback with
      | selectionCheck =>
        rw [hcb] at hta
        exact absurd hta (by simp [TimerCallback.isAnim])
      | smoothscrollStep dest d tm k =>
        simp only [runCallback]
        rw [smoothscroll_editing]
        exact h
  · intro h hmd
    unfold selectionCheckBody
    rw [hmd, h]
    simp

/-- A world with the editing flag set and nothing pending, for C10. -/
def wC10 : World :=
  { settings := DEFAULT_SETTINGS
    editing := true
    mousedown := false
    mouseup := false
    smoothscroll_timeout := none
    scrollY := 40
    geom := { cursorTop := some 160, rectTop := 0, rectBottom := 200, somethingSelected := false }
    activeMarkdownView := true
    pending := []
    nextId := 0
    styleInjected := true }

/-- Witness for C10 at wC10: the mouse handler and a (non-pending) timer
firing keep editing true; the debounced check only clears the flag. -/
theorem c10_editing_flag_lifecycle_witness :
    (mouseup_callback wC10).editing = true ∧
    (fireTimer wC10 0).editing = true ∧
    selectionCheckBody wC10 = { wC10 with editing := false } := by
  have h := c10_editing_flag_lifecycle wC10 0
  exact ⟨h.2.2.1 rfl, h.2.2.2.2.1 rfl (by simp [wC10]), h.2.2.2.2.2 rfl rfl⟩
